import Mathlib

/-!
Verification of `slack_sender.py` (exl-forums-scout).

Shallow embedding of the `SlackSender` class: configuration resolution
(`__init__`), message-block construction (`create_slack_blocks`) and the
notification send path (`send_notification`).  Wall-clock time is passed
explicitly: `nowStr` is the formatted timestamp `datetime.now()` produces for
the report header, and `nowOrd` is the proleptic-Gregorian ordinal of the
current date (the whole-day part of `datetime.now()`), which is all that the
age computation `(datetime.now() - question_date).days` observes, since the
parsed question date has time 00:00:00 and the time-of-day remainder is in
[0, 86400) seconds.  Network behaviour is passed as an explicit oracle
(`HttpBehavior`) describing what `requests.post` / `response.json()` do on
this one call; log output is collected as a list of strings.
-/

set_option autoImplicit false

namespace SlackScout

/-- A question record: a mapping with the four optional keys that
`create_slack_blocks` reads via `question.get(...)`.  `none` models an absent
key. -/
structure Question where
  title : Option String
  url : Option String
  date : Option String
  replies : Option Int
deriving DecidableEq, Repr

/-- Python truthiness of an optional string (`None` and `""` are falsy). -/
def strTruthy : Option String → Bool
  | none => false
  | some s => !s.isEmpty

/-- Python truthiness of an optional list (`None` and `[]` are falsy),
as tested by `if not questions`. -/
def listTruthy : Option (List Question) → Bool
  | none => false
  | some l => !l.isEmpty

/-- The per-instance configuration produced by `SlackSender.__init__`. -/
structure SlackSender where
  token : Option String
  channel : Option String
  report_title : String
deriving DecidableEq, Repr

/-- `SlackSender.__init__(token, channel)`:
`self.token = token or os.environ.get("AEM_SLACK_TOKEN")`,
`self.channel = channel or os.environ.get("AEM_SLACK_CHANNEL", "general")`,
`self.report_title = os.environ.get("AEM_REPORT_TITLE", "Adobe Experience
League Forums: Unresolved Questions")`.  `env` is the state of `os.environ`
(after any `.env` load at import time); Python `x or y` yields `y` whenever
`x` is falsy (`None` or the empty string). -/
def SlackSender.init (tokenArg channelArg : Option String)
    (env : String → Option String) : SlackSender :=
  { token := if strTruthy tokenArg then tokenArg else env "AEM_SLACK_TOKEN"
    channel := if strTruthy channelArg then channelArg
               else some ((env "AEM_SLACK_CHANNEL").getD "general")
    report_title := (env "AEM_REPORT_TITLE").getD
      "Adobe Experience League Forums: Unresolved Questions" }

/-! ### Date parsing (`datetime.strptime(date, "%Y-%m-%d")`) -/

/-- ASCII decimal digit test (the `\d` of the strptime regex, restricted to
ASCII, which is what the expected `YYYY-MM-DD` inputs use). -/
def isDig (c : Char) : Bool := 48 ≤ c.toNat && c.toNat ≤ 57

/-- Numeric value of a digit string. -/
def natOfDigits (cs : List Char) : Nat :=
  cs.foldl (fun a c => 10 * a + (c.toNat - 48)) 0

/-- Split a character list on `'-'` (the separators of the format string). -/
def splitDashAux : List Char → List Char → List (List Char)
  | [], acc => [acc.reverse]
  | c :: rest, acc =>
    if c = '-' then acc.reverse :: splitDashAux rest []
    else splitDashAux rest (c :: acc)

def splitDash (s : String) : List (List Char) := splitDashAux s.toList []

/-- Gregorian leap-year test, as in `datetime`. -/
def isLeap (y : Nat) : Bool := y % 4 == 0 && (y % 100 != 0 || y % 400 == 0)

/-- Days in a month of the proleptic Gregorian calendar. -/
def daysInMonth (y m : Nat) : Nat :=
  if m == 2 then (if isLeap y then 29 else 28)
  else if m == 4 || m == 6 || m == 9 || m == 11 then 30
  else 31

/-- `datetime.strptime(s, "%Y-%m-%d")` followed by the `datetime` constructor
validation: the string must be exactly four digits, `'-'`, one or two digits,
`'-'`, one or two digits, and the fields must form a valid date
(`MINYEAR = 1`, month in 1..12, day in 1..days-in-month).  Returns the parsed
`(year, month, day)` or `none` when `strptime` would raise `ValueError`. -/
def strptimeYMD (s : String) : Option (Nat × Nat × Nat) :=
  match splitDash s with
  | [ys, ms, ds] =>
    if ys.length == 4 && ys.all isDig
        && 1 ≤ ms.length && ms.length ≤ 2 && ms.all isDig
        && 1 ≤ ds.length && ds.length ≤ 2 && ds.all isDig then
      let y := natOfDigits ys
      let m := natOfDigits ms
      let d := natOfDigits ds
      if 1 ≤ y && 1 ≤ m && m ≤ 12 && 1 ≤ d && d ≤ daysInMonth y m then
        some (y, m, d)
      else none
    else none
  | _ => none

/-- Days before January 1 of year `y` in the proleptic Gregorian calendar
(as in `datetime.date.toordinal`). -/
def daysBeforeYear (y : Nat) : Nat :=
  365 * (y - 1) + (y - 1) / 4 - (y - 1) / 100 + (y - 1) / 400

/-- Days in year `y` before the first of month `m`. -/
def daysBeforeMonth (y m : Nat) : Nat :=
  ((List.range (m - 1)).map (fun i => daysInMonth y (i + 1))).sum

/-- `datetime.date(y, m, d).toordinal()`: day count in the proleptic
Gregorian calendar, with 0001-01-01 having ordinal 1. -/
def toOrdinal (y m d : Nat) : Nat := daysBeforeYear y + daysBeforeMonth y m + d

/-! ### Message blocks (`create_slack_blocks`) -/

/-- The shapes of Slack blocks the module emits: a header block, the
two-field metadata section, a plain `mrkdwn` text section, a divider, and a
context block. -/
inductive Block where
  | header (text : String)
  | fieldsSection (field1 field2 : String)
  | textSection (text : String)
  | divider
  | context (text : String)
deriving DecidableEq, Repr

/-- The age text computed for one question: parse the `date` field with
`strptime "%Y-%m-%d"`; on success `f"{age_days} days"` where
`age_days = (datetime.now() - question_date).days` is the ordinal difference
between the current date and the parsed date; on `ValueError` the `except`
branch yields `"Unknown"`. -/
def ageText (nowOrd : Nat) (date : String) : String :=
  match strptimeYMD date with
  | some (y, m, d) => toString ((nowOrd : Int) - (toOrdinal y m d : Int)) ++ " days"
  | none => "Unknown"

/-- The section block emitted for one question:
`f"*<{url}|{title}>*\nAge: {age_text} | Replies: {replies}"` with the
defaults `"Untitled Question"`, `"#"`, `"Unknown Date"` and `0` substituted
by `question.get`. -/
def questionEntry (nowOrd : Nat) (q : Question) : Block :=
  .textSection ("*<" ++ q.url.getD "#" ++ "|" ++ q.title.getD "Untitled Question"
    ++ ">*\nAge: " ++ ageText nowOrd (q.date.getD "Unknown Date")
    ++ " | Replies: " ++ toString (q.replies.getD 0))

/-- The `for i, question in enumerate(questions[:display_count])` loop body:
append the question's section block, and a divider when
`i < display_count - 1`.  `i` is the running index, `dc` is
`display_count`. -/
def loopBlocks (nowOrd : Nat) (dc : Nat) : Nat → List Question → List Block
  | _, [] => []
  | i, q :: rest =>
    questionEntry nowOrd q ::
      ((if i < dc - 1 then [Block.divider] else []) ++ loopBlocks nowOrd dc (i + 1) rest)

/-- `SlackSender.create_slack_blocks(questions, start_date)`.  `nowStr` is
`datetime.now().strftime("%Y-%m-%d %H:%M:%S")` and `nowOrd` the current
date's ordinal (see module docstring). -/
def create_slack_blocks (self : SlackSender) (nowStr : String) (nowOrd : Nat)
    (questions : List Question) (start_date : String) : List Block :=
  let blocks : List Block :=
    [ .header self.report_title,
      .fieldsSection ("*Report generated:* " ++ nowStr)
        ("*Questions since:* " ++ start_date),
      .textSection ("Found *" ++ toString questions.length ++ "* unanswered questions."),
      .divider ]
  if questions.isEmpty then
    blocks ++ [.textSection "No unanswered questions found in the specified time period."]
  else
    let display_count := min 10 questions.length
    let blocks := blocks ++ loopBlocks nowOrd display_count 0 (questions.take display_count)
    if questions.length > display_count then
      blocks ++ [.context ("_Showing " ++ toString display_count ++ " of "
        ++ toString questions.length
        ++ " questions. Check email report for complete list._")]
    else
      blocks

/-! ### The send path (`send_notification`) -/

/-- What the one network interaction does on this call: `responds status ok
error` means `requests.post` returned a response with the given status code
whose JSON body has an acknowledgement field of the given truthiness and the
given `error` field; `postRaises` means `requests.post` raised;
`jsonRaises` means `response.json()` raised (malformed body). -/
inductive HttpBehavior where
  | responds (status : Nat) (ok : Bool) (error : Option String)
  | postRaises (msg : String)
  | jsonRaises (msg : String)
deriving DecidableEq, Repr

/-- The fallible part of the `try` block: perform the POST and decode the
JSON body.  An exception from either step surfaces as `Except.error` with
`str(e)`. -/
def postAndDecode : HttpBehavior → Except String (Nat × Bool × Option String)
  | .responds status ok err => .ok (status, ok, err)
  | .postRaises m => .error m
  | .jsonRaises m => .error m

/-- The payload of the one `requests.post`: the JSON body
`{"channel": ..., "text": ..., "blocks": ...}`. -/
structure SlackRequest where
  channel : String
  text : String
  blocks : List Block
deriving DecidableEq, Repr

/-- Outcome of `send_notification`: the boolean return value, the POST that
was attempted (`none` when the function returned before any network I/O),
and the log messages it emitted. -/
structure SendOutcome where
  ret : Bool
  request : Option SlackRequest
  logs : List String
deriving DecidableEq, Repr

/-- `SlackSender.send_notification(questions, start_date)`.  `questions` and
`start_date` keep their Python optionality (`None` defaults); `http` is the
behaviour of the one network interaction; every exception escaping the `try`
block is caught by the `except` branch and converted to a logged `False`. -/
def send_notification (self : SlackSender) (http : HttpBehavior)
    (nowStr : String) (nowOrd : Nat)
    (questions : Option (List Question)) (start_date : Option String) : SendOutcome :=
  if !listTruthy questions then
    { ret := false, request := none,
      logs := ["No questions to send in the Slack notification"] }
  else
    let qs := questions.getD []
    let sd := if strTruthy start_date then start_date.getD "" else "unknown date"
    if !strTruthy self.token || !strTruthy self.channel then
      { ret := false, request := none, logs := ["Missing required Slack settings"] }
    else
      let blocks := create_slack_blocks self nowStr nowOrd qs sd
      let req : SlackRequest :=
        { channel := self.channel.getD ""
          text := self.report_title ++ " - Found " ++ toString qs.length
            ++ " questions since " ++ sd
          blocks := blocks }
      match postAndDecode http with
      | .ok (status, ok, err) =>
        if status == 200 && ok then
          { ret := true, request := some req,
            logs := ["Slack notification sent successfully to #" ++ self.channel.getD ""] }
        else
          { ret := false, request := some req,
            logs := ["Failed to send Slack notification: " ++ err.getD "Unknown error"] }
      | .error m =>
        { ret := false, request := some req,
          logs := ["Failed to send Slack notification: " ++ m] }

/-- A sample well-formed question record (all four keys present, date in
YYYY-MM-DD format), used to instantiate universally quantified theorems. -/
def wfq : Question :=
  { title := some "How to configure adaptive forms?"
    url := some "https://example.test/q/1"
    date := some "2024-01-01"
    replies := some 2 }

end SlackScout
namespace SlackScout

/-! ### Helper lemmas -/

theorem loopBlocks_eq_intersperse (nowOrd dc : Nat) :
    ∀ (l : List Question) (i : Nat), i + l.length = dc →
      loopBlocks nowOrd dc i l =
        List.intersperse Block.divider (l.map (questionEntry nowOrd)) := by
  intro l
  induction l with
  | nil => intro i _; rfl
  | cons q rest ih =>
    intro i h
    cases rest with
    | nil =>
      have hlt : ¬ i < dc - 1 := by
        simp only [List.length_cons, List.length_nil] at h
        omega
      simp [loopBlocks, hlt, List.intersperse]
    | cons r rs =>
      have hlt : i < dc - 1 := by
        simp only [List.length_cons] at h
        omega
      have ih2 := ih (i + 1) (by simp only [List.length_cons] at h ⊢; omega)
      have step : loopBlocks nowOrd dc i (q :: r :: rs)
          = questionEntry nowOrd q ::
            ((if i < dc - 1 then [Block.divider] else [])
              ++ loopBlocks nowOrd dc (i + 1) (r :: rs)) := rfl
      rw [step, if_pos hlt, ih2]
      simp [List.intersperse_cons_cons]

theorem length_intersperse {α : Type} (sep : α) :
    ∀ l : List α, (List.intersperse sep l).length = 2 * l.length - 1
  | [] => rfl
  | [_] => rfl
  | a :: b :: t => by
    rw [List.intersperse_cons_cons]
    have h := length_intersperse sep (b :: t)
    simp only [List.length_cons] at h ⊢
    omega

end SlackScout
namespace SlackScout

/-! ### Claims -/

/-- Claim C2: for every empty or absent question sequence,
`send_notification` returns false and performs no HTTP POST, regardless of
the configured credential and channel. -/
theorem C2_empty_questions_no_post (self : SlackSender) (http : HttpBehavior)
    (nowStr : String) (nowOrd : Nat) (questions : Option (List Question))
    (start_date : Option String) (h : questions = none ∨ questions = some []) :
    (send_notification self http nowStr nowOrd questions start_date).ret = false ∧
    (send_notification self http nowStr nowOrd questions start_date).request = none := by
  rcases h with h | h <;> subst h <;> simp [send_notification, listTruthy]

theorem C2_witness :
    (send_notification ⟨some "tok", some "chan", "T"⟩ (.responds 200 true none)
        "2024-01-10 00:00:00" 739260 (some []) (some "2024-01-01")).ret = false ∧
    (send_notification ⟨some "tok", some "chan", "T"⟩ (.responds 200 true none)
        "2024-01-10 00:00:00" 739260 (some []) (some "2024-01-01")).request = none :=
  C2_empty_questions_no_post _ _ _ _ _ _ (Or.inr rfl)

/-- Claim C3: for every configuration in which the token or the channel is
unset (falsy), `send_notification` returns false and performs no HTTP POST,
for every question list. -/
theorem C3_missing_settings_no_post (self : SlackSender) (http : HttpBehavior)
    (nowStr : String) (nowOrd : Nat) (questions : Option (List Question))
    (start_date : Option String)
    (h : strTruthy self.token = false ∨ strTruthy self.channel = false) :
    (send_notification self http nowStr nowOrd questions start_date).ret = false ∧
    (send_notification self http nowStr nowOrd questions start_date).request = none := by
  by_cases hq : listTruthy questions = true
  · rcases h with h | h <;> simp [send_notification, hq, h]
  · simp only [Bool.not_eq_true] at hq
    simp [send_notification, hq]

theorem C3_witness :
    (send_notification ⟨none, some "chan", "T"⟩ (.responds 200 true none)
        "2024-01-10 00:00:00" 739260
        (some [⟨some "t", some "u", some "2024-01-01", some 2⟩]) none).ret = false ∧
    (send_notification ⟨none, some "chan", "T"⟩ (.responds 200 true none)
        "2024-01-10 00:00:00" 739260
        (some [⟨some "t", some "u", some "2024-01-01", some 2⟩]) none).request = none :=
  C3_missing_settings_no_post _ _ _ _ _ _ (Or.inl rfl)

/-- Claim C6: for the empty question list, `create_slack_blocks` returns
exactly the four standard leading segments (header with the report title,
metadata section, count section, divider) followed by exactly one
"no results" segment and nothing else. -/
theorem C6_empty_list_blocks (self : SlackSender) (nowStr : String)
    (nowOrd : Nat) (start_date : String) :
    create_slack_blocks self nowStr nowOrd [] start_date =
      [ .header self.report_title,
        .fieldsSection ("*Report generated:* " ++ nowStr)
          ("*Questions since:* " ++ start_date),
        .textSection "Found *0* unanswered questions.",
        .divider,
        .textSection "No unanswered questions found in the specified time period." ] := rfl

/-- Claim C8: a record missing the `title`, `url` or `replies` key renders
exactly as the same record with the default value ("Untitled Question", "#",
0 respectively) explicitly present, and a record missing all three emits the
fully defaulted segment; the builder is total on such records. -/
theorem C8_missing_key_defaults (nowOrd : Nat) (q : Question) :
    (q.title = none →
      questionEntry nowOrd q
        = questionEntry nowOrd { q with title := some "Untitled Question" }) ∧
    (q.url = none →
      questionEntry nowOrd q = questionEntry nowOrd { q with url := some "#" }) ∧
    (q.replies = none →
      questionEntry nowOrd q = questionEntry nowOrd { q with replies := some 0 }) ∧
    (q.title = none → q.url = none → q.replies = none →
      questionEntry nowOrd q
        = .textSection ("*<" ++ "#" ++ "|" ++ "Untitled Question" ++ ">*\nAge: "
            ++ ageText nowOrd (q.date.getD "Unknown Date")
            ++ " | Replies: " ++ toString (0 : Int))) := by
  refine ⟨fun h1 => ?_, fun h2 => ?_, fun h3 => ?_, fun h1 h2 h3 => ?_⟩ <;>
    simp [questionEntry, *]

theorem C8_witness :
    questionEntry 739260 ⟨none, none, some "2024-01-01", none⟩
      = questionEntry 739260
          ⟨some "Untitled Question", none, some "2024-01-01", none⟩ :=
  (C8_missing_key_defaults 739260 ⟨none, none, some "2024-01-01", none⟩).1 rfl

/-- Claim C9 (amended): construction resolves each configuration value with
precedence truthy (non-None, non-empty) explicit constructor argument, else
environment variable, else hardcoded default — a `None` or empty-string
argument is treated as absent; the credential has no hardcoded default, the
channel defaults to "general", and the report title (which has no
constructor argument) defaults to "Adobe Experience League Forums:
Unresolved Questions". -/
theorem C9_config_resolution (tokenArg channelArg : Option String)
    (env : String → Option String) :
    ((SlackSender.init tokenArg channelArg env).report_title
        = (env "AEM_REPORT_TITLE").getD
            "Adobe Experience League Forums: Unresolved Questions") ∧
    (strTruthy tokenArg = true →
      (SlackSender.init tokenArg channelArg env).token = tokenArg) ∧
    (strTruthy tokenArg = false →
      (SlackSender.init tokenArg channelArg env).token = env "AEM_SLACK_TOKEN") ∧
    (strTruthy channelArg = true →
      (SlackSender.init tokenArg channelArg env).channel = channelArg) ∧
    (strTruthy channelArg = false →
      (SlackSender.init tokenArg channelArg env).channel
        = some ((env "AEM_SLACK_CHANNEL").getD "general")) := by
  refine ⟨rfl, fun h => ?_, fun h => ?_, fun h => ?_, fun h => ?_⟩ <;>
    simp [SlackSender.init, h]

theorem C9_witness :
    (SlackSender.init (some "tok") none (fun _ => none)).token = some "tok" ∧
    (SlackSender.init (some "tok") none (fun _ => none)).channel = some "general" ∧
    (SlackSender.init (some "tok") none (fun _ => none)).report_title
      = "Adobe Experience League Forums: Unresolved Questions" :=
  ⟨(C9_config_resolution (some "tok") none (fun _ => none)).2.1 rfl,
   (C9_config_resolution (some "tok") none (fun _ => none)).2.2.2.2 rfl,
   (C9_config_resolution (some "tok") none (fun _ => none)).1⟩

/-- Claim C9, original form, is false: the explicit constructor argument
`token=""` does not take precedence — the empty string is falsy, so `token or
os.environ.get(...)` resolves to the environment value instead of the
explicitly supplied argument. -/
theorem C9_counterexample :
    (SlackSender.init (some "") none
        (fun k => if k = "AEM_SLACK_TOKEN" then some "tok-from-env" else none)).token
      = some "tok-from-env" ∧
    some "tok-from-env" ≠ (some "" : Option String) := by
  refine ⟨rfl, ?_⟩
  decide

end SlackScout
namespace SlackScout

theorem listTruthy_some_of_ne_nil {qs : List Question} (h : qs ≠ []) :
    listTruthy (some qs) = true := by
  cases qs with
  | nil => exact absurd rfl h
  | cons a l => rfl

/-- Claim C1: once the preconditions pass and an HTTP response is obtained,
`send_notification` returns true iff the response status is 200 and the
decoded body's acknowledgement flag is true; in every other responding case
it returns false and logs the provider-supplied error string, substituting
"Unknown error" when the body has no error field. -/
theorem C1_success_iff_ack (self : SlackSender) (nowStr : String) (nowOrd : Nat)
    (qs : List Question) (start_date : Option String)
    (status : Nat) (ok : Bool) (err : Option String)
    (hq : qs ≠ []) (ht : strTruthy self.token = true)
    (hc : strTruthy self.channel = true) :
    ((send_notification self (.responds status ok err) nowStr nowOrd (some qs)
        start_date).ret = true ↔ (status = 200 ∧ ok = true)) ∧
    (¬ (status = 200 ∧ ok = true) →
      (send_notification self (.responds status ok err) nowStr nowOrd (some qs)
          start_date).logs
        = ["Failed to send Slack notification: " ++ err.getD "Unknown error"]) := by
  have hq' := listTruthy_some_of_ne_nil hq
  by_cases hcond : (status == 200 && ok) = true
  · have h200 : status = 200 ∧ ok = true := by
      simp only [Bool.and_eq_true, beq_iff_eq] at hcond
      exact hcond
    simp [send_notification, hq', ht, hc, postAndDecode, hcond, h200]
  · have h200 : ¬ (status = 200 ∧ ok = true) := by
      simp only [Bool.and_eq_true, beq_iff_eq] at hcond
      exact hcond
    simp [send_notification, hq', ht, hc, postAndDecode, hcond, h200]

theorem C1_witness :
    (send_notification ⟨some "tok", some "chan", "T"⟩
        (.responds 500 false (some "invalid_auth")) "2024-01-10 00:00:00" 739260
        (some [⟨some "t", some "u", some "2024-01-01", some 2⟩]) none).logs
      = ["Failed to send Slack notification: invalid_auth"] :=
  (C1_success_iff_ack ⟨some "tok", some "chan", "T"⟩ "2024-01-10 00:00:00" 739260
      [⟨some "t", some "u", some "2024-01-01", some 2⟩] none 500 false
      (some "invalid_auth") (List.cons_ne_nil _ _) rfl rfl).2 (by simp)

theorem send_logs_ne_nil (self : SlackSender) (http : HttpBehavior)
    (nowStr : String) (nowOrd : Nat) (questions : Option (List Question))
    (start_date : Option String) :
    (send_notification self http nowStr nowOrd questions start_date).logs ≠ [] := by
  unfold send_notification
  repeat' split
  all_goals simp

theorem send_catches (self : SlackSender) (http : HttpBehavior)
    (nowStr : String) (nowOrd : Nat) (questions : Option (List Question))
    (start_date : Option String) (m : String)
    (hm : postAndDecode http = .error m)
    (hq : listTruthy questions = true)
    (ht : strTruthy self.token = true) (hc : strTruthy self.channel = true) :
    (send_notification self http nowStr nowOrd questions start_date).ret = false ∧
    (send_notification self http nowStr nowOrd questions start_date).logs
      = ["Failed to send Slack notification: " ++ m] := by
  simp only [send_notification, hq, ht, hc]
  rw [hm]
  simp

/-- Claim C4: `send_notification` never propagates an exception: every
failure path ends in a logged message and the boolean false — in particular
an exception raised by the network call or by decoding the response body
(`postRaises` / `jsonRaises`) is caught and converted into false with the
exception text logged. -/
theorem C4_no_exception_escapes (self : SlackSender) (http : HttpBehavior)
    (nowStr : String) (nowOrd : Nat) (questions : Option (List Question))
    (start_date : Option String) :
    ((send_notification self http nowStr nowOrd questions start_date).ret = false →
      (send_notification self http nowStr nowOrd questions start_date).logs ≠ []) ∧
    (∀ m, postAndDecode http = .error m →
      listTruthy questions = true →
      strTruthy self.token = true → strTruthy self.channel = true →
      (send_notification self http nowStr nowOrd questions start_date).ret = false ∧
      (send_notification self http nowStr nowOrd questions start_date).logs
        = ["Failed to send Slack notification: " ++ m]) :=
  ⟨fun _ => send_logs_ne_nil self http nowStr nowOrd questions start_date,
   fun m hm hq ht hc => send_catches self http nowStr nowOrd questions start_date m hm hq ht hc⟩

theorem C4_witness :
    (send_notification ⟨some "tok", some "chan", "T"⟩
        (.postRaises "ConnectionError: unreachable") "2024-01-10 00:00:00" 739260
        (some [⟨some "t", some "u", some "2024-01-01", some 2⟩]) none).ret = false ∧
    (send_notification ⟨some "tok", some "chan", "T"⟩
        (.postRaises "ConnectionError: unreachable") "2024-01-10 00:00:00" 739260
        (some [⟨some "t", some "u", some "2024-01-01", some 2⟩]) none).logs
      = ["Failed to send Slack notification: ConnectionError: unreachable"] :=
  (C4_no_exception_escapes ⟨some "tok", some "chan", "T"⟩
      (.postRaises "ConnectionError: unreachable") "2024-01-10 00:00:00" 739260
      (some [⟨some "t", some "u", some "2024-01-01", some 2⟩]) none).2
    "ConnectionError: unreachable" rfl rfl rfl rfl

/-- Claim C7: the age shown for a displayed record is the whole-day
difference between the current date and the date parsed from the record's
date field with format YYYY-MM-DD; the date "2024-01-01" viewed from
2024-01-10 yields "9 days", and any unparseable date field yields "Unknown"
without any exception (the computation is total). -/
theorem C7_age_computation :
    (∀ (nowOrd : Nat) (d : String) (y m dd : Nat),
        strptimeYMD d = some (y, m, dd) →
        ageText nowOrd d
          = toString ((nowOrd : Int) - (toOrdinal y m dd : Int)) ++ " days") ∧
    (∀ (nowOrd : Nat) (d : String),
        strptimeYMD d = none → ageText nowOrd d = "Unknown") ∧
    strptimeYMD "2024-01-01" = some (2024, 1, 1) ∧
    ageText (toOrdinal 2024 1 10) "2024-01-01" = "9 days" ∧
    (∀ nowOrd : Nat, ageText nowOrd "not-a-date" = "Unknown") := by
  refine ⟨fun nowOrd d y m dd h => ?_, fun nowOrd d h => ?_, ?_, ?_, fun nowOrd => ?_⟩
  · simp [ageText, h]
  · simp [ageText, h]
  · rfl
  · rfl
  · rfl

theorem C7_witness :
    ageText 739260 "2024-01-01"
      = toString ((739260 : Int) - (toOrdinal 2024 1 1 : Int)) ++ " days" ∧
    ageText 739260 "bad-date!" = "Unknown" :=
  ⟨C7_age_computation.1 739260 "2024-01-01" 2024 1 1 rfl,
   C7_age_computation.2.1 739260 "bad-date!" rfl⟩

end SlackScout
namespace SlackScout

theorem create_slack_blocks_nonempty (self : SlackSender) (nowStr : String)
    (nowOrd : Nat) (questions : List Question) (start_date : String)
    (h : questions ≠ []) :
    create_slack_blocks self nowStr nowOrd questions start_date =
      [ Block.header self.report_title,
        Block.fieldsSection ("*Report generated:* " ++ nowStr)
          ("*Questions since:* " ++ start_date),
        Block.textSection ("Found *" ++ toString questions.length
          ++ "* unanswered questions."),
        Block.divider ]
      ++ List.intersperse Block.divider
          ((questions.take (min 10 questions.length)).map (questionEntry nowOrd))
      ++ (if 10 < questions.length then
            [Block.context ("_Showing " ++ toString (min 10 questions.length)
              ++ " of " ++ toString questions.length
              ++ " questions. Check email report for complete list._")]
          else []) := by
  have hne : questions.isEmpty = false := by
    cases questions with
    | nil => exact absurd rfl h
    | cons a l => rfl
  have htake : (questions.take (min 10 questions.length)).length
      = min 10 questions.length := by
    rw [List.length_take]
    omega
  have hloop := loopBlocks_eq_intersperse nowOrd (min 10 questions.length)
    (questions.take (min 10 questions.length)) 0 (by rw [htake]; omega)
  have hcond : (questions.length > min 10 questions.length) = (10 < questions.length) := by
    by_cases h10 : 10 < questions.length
    · simp only [eq_iff_iff]
      constructor <;> intro <;> omega
    · simp only [eq_iff_iff]
      constructor <;> intro <;> omega
  simp only [create_slack_blocks, hne, Bool.false_eq_true, if_false, hloop, hcond]
  by_cases h10 : 10 < questions.length
  · simp [h10]
  · simp [h10]

end SlackScout
namespace SlackScout

/-- Claim C10: for every non-empty question list of n records,
`create_slack_blocks` returns a block list of length exactly
3 + 2·min(10, n) + (1 if n > 10 else 0), whose first block is the header
carrying the configured report title and whose count section (the third
block) states the total n, not the number displayed. -/
theorem C10_nonempty_shape (self : SlackSender) (nowStr : String) (nowOrd : Nat)
    (questions : List Question) (start_date : String) (h : questions ≠ []) :
    (create_slack_blocks self nowStr nowOrd questions start_date).length
        = 3 + 2 * min 10 questions.length
          + (if 10 < questions.length then 1 else 0) ∧
    (create_slack_blocks self nowStr nowOrd questions start_date).head?
        = some (Block.header self.report_title) ∧
    (create_slack_blocks self nowStr nowOrd questions start_date)[2]?
        = some (Block.textSection ("Found *" ++ toString questions.length
            ++ "* unanswered questions.")) := by
  rw [create_slack_blocks_nonempty self nowStr nowOrd questions start_date h]
  have hlen1 : 1 ≤ questions.length := by
    cases questions with
    | nil => exact absurd rfl h
    | cons a l => simp
  have htake : (questions.take (min 10 questions.length)).length
      = min 10 questions.length := by
    rw [List.length_take]
    omega
  have hint : (List.intersperse Block.divider
      ((questions.take (min 10 questions.length)).map (questionEntry nowOrd))).length
      = 2 * min 10 questions.length - 1 := by
    rw [length_intersperse, List.length_map, htake]
  refine ⟨?_, ?_, ?_⟩
  · rw [List.length_append, List.length_append, hint]
    by_cases h10 : 10 < questions.length <;> simp [h10] <;> omega
  · simp
  · simp

theorem C10_witness :
    ((create_slack_blocks ⟨some "tok", some "chan", "T"⟩ "2024-01-10 00:00:00"
        739260 [wfq, wfq, wfq] "2024-01-01").length = 3 + 2 * min 10 3 + 0 ∧
      (create_slack_blocks ⟨some "tok", some "chan", "T"⟩ "2024-01-10 00:00:00"
        739260 [wfq, wfq, wfq] "2024-01-01").head? = some (Block.header "T") ∧
      (create_slack_blocks ⟨some "tok", some "chan", "T"⟩ "2024-01-10 00:00:00"
        739260 [wfq, wfq, wfq] "2024-01-01")[2]?
        = some (Block.textSection "Found *3* unanswered questions.")) :=
  C10_nonempty_shape ⟨some "tok", some "chan", "T"⟩ "2024-01-10 00:00:00" 739260
    [wfq, wfq, wfq] "2024-01-01" (List.cons_ne_nil _ _)

/-- Claim C5: for every list of 15 well-formed question records the builder
emits exactly 10 question entries — the first 10 records in caller-supplied
order — with exactly 9 dividers between consecutive entries (none after the
last), followed by exactly one trailing note stating that 10 of 15 questions
are shown. -/
theorem C5_fifteen_records (self : SlackSender) (nowStr : String) (nowOrd : Nat)
    (start_date : String)
    (q1 q2 q3 q4 q5 q6 q7 q8 q9 q10 q11 q12 q13 q14 q15 : Question)
    (_hwf : ∀ q ∈ [q1, q2, q3, q4, q5, q6, q7, q8, q9, q10, q11, q12, q13, q14, q15],
      q.title ≠ none ∧ q.url ≠ none ∧ q.replies ≠ none ∧ q.date ≠ none ∧
        (strptimeYMD (q.date.getD "")).isSome = true) :
    create_slack_blocks self nowStr nowOrd
        [q1, q2, q3, q4, q5, q6, q7, q8, q9, q10, q11, q12, q13, q14, q15]
        start_date =
      [ Block.header self.report_title,
        Block.fieldsSection ("*Report generated:* " ++ nowStr)
          ("*Questions since:* " ++ start_date),
        Block.textSection ("Found *" ++ toString (15 : Nat)
          ++ "* unanswered questions."),
        Block.divider,
        questionEntry nowOrd q1, Block.divider,
        questionEntry nowOrd q2, Block.divider,
        questionEntry nowOrd q3, Block.divider,
        questionEntry nowOrd q4, Block.divider,
        questionEntry nowOrd q5, Block.divider,
        questionEntry nowOrd q6, Block.divider,
        questionEntry nowOrd q7, Block.divider,
        questionEntry nowOrd q8, Block.divider,
        questionEntry nowOrd q9, Block.divider,
        questionEntry nowOrd q10,
        Block.context ("_Showing " ++ toString (10 : Nat) ++ " of "
          ++ toString (15 : Nat)
          ++ " questions. Check email report for complete list._") ] := rfl

theorem C5_witness :
    create_slack_blocks ⟨some "tok", some "chan", "T"⟩ "2024-01-10 00:00:00" 739260
        [wfq, wfq, wfq, wfq, wfq, wfq, wfq, wfq, wfq, wfq, wfq, wfq, wfq, wfq, wfq]
        "2024-01-01" =
      [ Block.header "T",
        Block.fieldsSection "*Report generated:* 2024-01-10 00:00:00"
          "*Questions since:* 2024-01-01",
        Block.textSection "Found *15* unanswered questions.",
        Block.divider,
        questionEntry 739260 wfq, Block.divider,
        questionEntry 739260 wfq, Block.divider,
        questionEntry 739260 wfq, Block.divider,
        questionEntry 739260 wfq, Block.divider,
        questionEntry 739260 wfq, Block.divider,
        questionEntry 739260 wfq, Block.divider,
        questionEntry 739260 wfq, Block.divider,
        questionEntry 739260 wfq, Block.divider,
        questionEntry 739260 wfq, Block.divider,
        questionEntry 739260 wfq,
        Block.context
          "_Showing 10 of 15 questions. Check email report for complete list._" ] :=
  C5_fifteen_records ⟨some "tok", some "chan", "T"⟩ "2024-01-10 00:00:00" 739260
    "2024-01-01" wfq wfq wfq wfq wfq wfq wfq wfq wfq wfq wfq wfq wfq wfq wfq
    (by decide)

end SlackScout
